import Mathlib

/-!
Verification of the slackcli conversation/search pipeline.

Shallow embedding of the core logic of `src/commands/conversations.ts`,
`src/commands/search.ts` and `src/lib/formatter.ts`:

* `parseDate` — the date-expression resolver (relative "N unit ago" grammar
  and the absolute fallback, with the host date parser abstracted as an
  oracle) from `conversations.ts` lines 10-37;
* the read-command message pipeline (thread/history branch, reply filter,
  reversal, user-id collection, batched user lookup, JSON cursor emission)
  from `conversations.ts` lines 226-356;
* the list/unread commands' per-channel unread-enrichment fan-out from
  `conversations.ts` lines 54-209, with `getConversationInfo` abstracted
  as an oracle that either throws or returns a response;
* the parent-message map and the parent lookup of
  `formatConversationHistory` from `conversations.ts` lines 294-300 and
  `formatter.ts` lines 176-181;
* the search command's count/sort validation and forwarding from
  `search.ts` lines 19-83;
* `formatSlackError` and the `error` renderer from `formatter.ts`
  lines 196-255.

Network effects are represented by explicit oracles (`Except` for calls
whose rejection aborts the command, an outcome type for the per-channel
info calls whose rejection is swallowed), and `Date.now()` by an explicit
millisecond parameter, so every definition is executable.
-/

/-- A message as consumed by the pipeline (`SlackMessage` in
`src/types/index.ts`): `ts` identity timestamp, optional `thread_ts`
(equal to `ts` for a thread root, different for a reply, absent
otherwise), optional author, text, and the auxiliary fields the JSON
emitter projects. -/
structure SlackMessage where
  ts : String
  thread_ts : Option String := none
  user : Option String := none
  text : String := ""
  reply_count : Option Nat := none
  bot_id : Option String := none
  deriving Repr, DecidableEq

/-- A channel as consumed by the list/unread commands: id, flags, optional
DM counterpart and the two enrichment fields the unread fan-out copies. -/
structure SlackChannel where
  id : String
  name : Option String := none
  is_im : Bool := false
  is_mpim : Bool := false
  is_private : Bool := false
  is_archived : Bool := false
  user : Option String := none
  unread_count_display : Option Nat := none
  last_read : Option String := none
  deriving Repr, DecidableEq

/-- A resolved user (`SlackUser`): id, name, optional real name / email. -/
structure SlackUser where
  id : String
  name : String := ""
  real_name : Option String := none
  email : Option String := none
  deriving Repr, DecidableEq

/-! ## DateRangeResolver (`parseDate`, conversations.ts lines 10-37) -/

/-- Value of a decimal digit run, as `parseInt` computes it on a pure
digit string (`conversations.ts` line 14). -/
def natOfDigits (ds : List Char) : Nat :=
  ds.foldl (fun n c => 10 * n + (c.toNat - 48)) 0

/-- ASCII lowercasing of one character, the effect of JS `toLowerCase`
(and of Lean's own `Char.toLower`) on the ASCII strings compared here. -/
def lowerChar (c : Char) : Char :=
  if 65 ≤ c.toNat && c.toNat ≤ 90 then Char.ofNat (c.toNat + 32) else c

/-- ASCII lowercasing of a character list. -/
def lowerList (cs : List Char) : List Char := cs.map lowerChar

/-- String `s.startsWith p`, computed structurally on the character lists. -/
def startsWithJS (s p : String) : Bool := p.data.isPrefixOf s.data

/-- The anchored case-insensitive regex
`^(\d+)\s+(day|days|week|weeks|hour|hours)\s+ago$` of `parseDate`
(line 12), together with the `toLowerCase` normalisation of the captured
unit (line 15).  Because every alternative is a maximal run of letters
followed by mandatory whitespace, the regex matches exactly the strings
of shape digits⁺ · ws⁺ · unit · ws⁺ · "ago" with the unit and the "ago"
tail compared case-insensitively; returns the parsed amount and the
lowercased unit. -/
def matchRelative (s : String) : Option (Nat × String) :=
  let cs := s.data
  let ds := cs.takeWhile Char.isDigit
  let r1 := cs.dropWhile Char.isDigit
  let sp1 := r1.takeWhile Char.isWhitespace
  let r2 := r1.dropWhile Char.isWhitespace
  let u := r2.takeWhile (fun c => !c.isWhitespace)
  let r3 := r2.dropWhile (fun c => !c.isWhitespace)
  let sp2 := r3.takeWhile Char.isWhitespace
  let r4 := r3.dropWhile Char.isWhitespace
  let unit := String.mk (lowerList u)
  if ds.isEmpty then none
  else if sp1.isEmpty then none
  else if !(unit == "day" || unit == "days" || unit == "week" ||
            unit == "weeks" || unit == "hour" || unit == "hours") then none
  else if sp2.isEmpty then none
  else if !(String.mk (lowerList r4) == "ago") then none
  else some (natOfDigits ds, unit)

/-- Milliseconds per unit, mirroring the `startsWith` dispatch of
`parseDate` lines 19-25 (`amount * 60*60*1000` etc. with the amount
factored out). -/
def unitMsOf (unit : String) : Nat :=
  if startsWithJS unit "hour" then 60 * 60 * 1000
  else if startsWithJS unit "day" then 24 * 60 * 60 * 1000
  else if startsWithJS unit "week" then 7 * 24 * 60 * 60 * 1000
  else 0

/-- Seconds per unit, the quantity the spec calls `unitSeconds`. -/
def unitSecondsOf (unit : String) : Nat :=
  if startsWithJS unit "hour" then 60 * 60
  else if startsWithJS unit "day" then 24 * 60 * 60
  else if startsWithJS unit "week" then 7 * 24 * 60 * 60
  else 0

/-- Function `parseDate` (conversations.ts lines 10-37).  `nowMs` stands for
`Date.now()`; `dateParse` abstracts the host `new Date(str).getTime()`
(milliseconds, `none` when the result is `NaN`).  `Math.floor` on a ratio
of integers is floor division `Int.fdiv`. -/
def parseDate (nowMs : Int) (dateParse : String → Option Int)
    (dateStr : String) : Except String String :=
  match matchRelative dateStr with
  | some (amount, unit) =>
    .ok (toString (Int.fdiv (nowMs - (amount * unitMsOf unit : Nat)) 1000))
  | none =>
    match dateParse dateStr with
    | some t => .ok (toString (Int.fdiv t 1000))
    | none =>
      .error ("Invalid date format: \"" ++ dateStr ++
        "\". Use formats like \"2 days ago\", \"1 week ago\", or \"2025-11-25\"")

/-! ## JS `parseInt(str, 10)` (used by the search command's count check) -/

/-- JS `parseInt(s, 10)`: skip leading whitespace, take an optional sign and
then the maximal run of decimal digits; `none` models `NaN` (no digits).
Trailing garbage after the digit run is ignored, exactly as in JS. -/
def parseIntJS (s : String) : Option Int :=
  let cs := s.data.dropWhile Char.isWhitespace
  let signAndRest : Int × List Char :=
    match cs with
    | '-' :: rest => (-1, rest)
    | '+' :: rest => (1, rest)
    | _ => (1, cs)
  let ds := signAndRest.2.takeWhile Char.isDigit
  if ds.isEmpty then none
  else some (signAndRest.1 * (natOfDigits ds : Int))

example : parseIntJS "100" = some 100 := by decide
example : parseIntJS "50abc" = some 50 := by decide
example : parseIntJS "abc" = none := by decide
example : matchRelative "2 Days AGO" = some (2, "days") := by decide
example : matchRelative "not-a-date" = none := by decide
example : parseDate 1700000000000 (fun _ => none) "3 hours ago" =
    .ok "1699989200" := rfl

/-! ## Read command message pipeline (conversations.ts lines 226-356) -/

/-- Response of `getConversationHistory` / `getConversationReplies`:
the message page and `response_metadata?.next_cursor` (absent or falsy
modelled as `none`). -/
structure HistoryResponse where
  messages : List SlackMessage
  next_cursor : Option String := none
  deriving Repr, DecidableEq

/-- Response of `getUsersInfo` when the promise resolves. -/
structure UsersResponse where
  ok : Bool := true
  users : Option (List SlackUser) := none
  deriving Repr, DecidableEq

/-- Stages 1/4/5 of the read command on the fetched page
(conversations.ts lines 247-275): with `--thread-ts` the reply page is
taken as is; otherwise, with `--exclude-replies`, messages whose
`thread_ts` is present and different from their own `ts` are dropped
(line 270); in both branches the page is then reversed (line 275). -/
def readStage (threadTs : Option String) (excludeReplies : Bool)
    (page : List SlackMessage) : List SlackMessage :=
  match threadTs with
  | some _ => page.reverse
  | none =>
    let ms := if excludeReplies then
        page.filter (fun m => m.thread_ts.isNone || m.thread_ts == some m.ts)
      else page
    ms.reverse

/-- The `Set`-based author collection of lines 278-283: first-occurrence
order, de-duplicated. -/
def collectUserIds (messages : List SlackMessage) : List String :=
  messages.foldl (fun acc m =>
    match m.user with
    | some u => if acc.contains u then acc else acc ++ [u]
    | none => acc) []

/-- JS `Map.set` on an association list: overwrite the value in place when
the key is present, append otherwise (insertion order preserved). -/
def mapSet (m : List (String × SlackMessage)) (k : String) (v : SlackMessage) :
    List (String × SlackMessage) :=
  if m.any (fun p => p.1 == k) then
    m.map (fun p => if p.1 == k then (k, v) else p)
  else m ++ [(k, v)]

/-- JS `Map.get` on an association list. -/
def mapGet (m : List (String × SlackMessage)) (k : String) : Option SlackMessage :=
  (m.find? (fun p => p.1 == k)).map Prod.snd

/-- The parent-message map of conversations.ts lines 294-300: every
message with `thread_ts === ts` is indexed by that timestamp. -/
def buildParents (messages : List SlackMessage) : List (String × SlackMessage) :=
  messages.foldl (fun acc m =>
    if m.thread_ts == some m.ts then mapSet acc m.ts m else acc) []

/-- Parent selection of `formatConversationHistory` (formatter.ts lines
178-180): a reply (`thread_ts` present and different from `ts`) looks its
root up in the parents map; every other message gets no parent. -/
def parentFor (parents : List (String × SlackMessage)) (m : SlackMessage) :
    Option SlackMessage :=
  match m.thread_ts with
  | some t => if t == m.ts then none else mapGet parents t
  | none => none

/-- The rendering loop of `formatConversationHistory` (formatter.ts lines
177-185), abstracted to the (message, parent-preview) pairs it emits: one
entry per message, in order, parent context attached where found. -/
def historyEntries (messages : List SlackMessage)
    (parents : List (String × SlackMessage)) :
    List (SlackMessage × Option SlackMessage) :=
  messages.map (fun m => (m, parentFor parents m))

/-- Structured (JSON) output of the read command (lines 320-341). -/
structure ReadOutput where
  channel_id : String
  message_count : Nat
  messages : List SlackMessage
  users : List SlackUser
  next_cursor : Option String
  deriving Repr, DecidableEq

/-- The read command body from the fetched response onward
(conversations.ts lines 244-341): stage selection and reversal
(`readStage`), author collection, the single batched `getUsersInfo` call
— whose rejection propagates to the catch block, aborting the command
with no output (lines 286-292, 351-355) — and the JSON emission carrying
`response_metadata?.next_cursor` verbatim (line 340).  `usersInfo`
abstracts `client.getUsersInfo`; `.error` is a rejected promise. -/
def readCommand (threadTs : Option String) (excludeReplies : Bool)
    (resp : HistoryResponse)
    (usersInfo : List String → Except String UsersResponse)
    (channelId : String) : Except String ReadOutput :=
  let messages := readStage threadTs excludeReplies resp.messages
  let userIds := collectUserIds messages
  if userIds.isEmpty then
    .ok { channel_id := channelId, message_count := messages.length,
          messages := messages, users := [],
          next_cursor := resp.next_cursor }
  else
    match usersInfo userIds with
    | .error e => .error e
    | .ok ur =>
      .ok { channel_id := channelId, message_count := messages.length,
            messages := messages, users := ur.users.getD [],
            next_cursor := resp.next_cursor }

/-- The pagination hint of the read command's human-readable branch
(conversations.ts lines 346-349): printed only when
`response_metadata?.next_cursor` is truthy, reproducing the cursor
verbatim after `--cursor=`. -/
def readPaginationHint (channelId : String) (next_cursor : Option String)
    (limit oldest latest : Option String) : Option String :=
  match next_cursor with
  | none => none
  | some c =>
    if c == "" then none
    else some ("  slack conversations read " ++ channelId ++ " --cursor=" ++ c
      ++ (match limit with | some l => " --limit=" ++ l | none => "")
      ++ (match oldest with | some o => " --oldest=" ++ o | none => "")
      ++ (match latest with | some l => " --latest=" ++ l | none => ""))

/-! ## List / unread commands (conversations.ts lines 54-209) -/

/-- Outcome of one `getConversationInfo(channel.id)` call: `thrown` is a
rejected promise (caught per channel), `resp` a resolved response with
its `ok` flag and optional `channel` payload. -/
inductive InfoOutcome where
  | thrown
  | resp (ok : Bool) (channel : Option SlackChannel)
  deriving Repr, DecidableEq

/-- One iteration of the `--show-unreads` loop of the list command
(lines 96-107): when the info call resolves ok with a channel payload,
`unread_count_display` and `last_read` are copied onto the channel; a
rejection (caught at lines 104-106) or a non-ok response leaves the
channel untouched. -/
def showUnreadsStep (info : String → InfoOutcome) (ch : SlackChannel) :
    SlackChannel :=
  match info ch.id with
  | .thrown => ch
  | .resp ok channel? =>
    if ok then
      match channel? with
      | some ci => { ch with unread_count_display := ci.unread_count_display,
                             last_read := ci.last_read }
      | none => ch
    else ch

/-- The `--show-unreads` branch of the list command (lines 95-107):
every channel is kept, enriched where its info call succeeds. -/
def enrichShowUnreads (info : String → InfoOutcome)
    (channels : List SlackChannel) : List SlackChannel :=
  channels.map (showUnreadsStep info)

/-- One iteration of the unread-filter loop shared by the list command's
`--unread-only` branch (lines 77-91) and the unread command (lines
168-182): the channel is kept, enriched, only when its info call
resolves ok with a payload whose `unread_count_display` is present and
positive; a rejection (the per-channel catch) and every other response
drop the channel. -/
def unreadFilterStep (info : String → InfoOutcome) (ch : SlackChannel) :
    Option SlackChannel :=
  match info ch.id with
  | .thrown => none
  | .resp ok channel? =>
    if ok then
      match channel? with
      | some ci =>
        match ci.unread_count_display with
        | some n =>
          if 0 < n then
            some { ch with unread_count_display := some n,
                           last_read := ci.last_read }
          else none
        | none => none
      | none => none
    else none

/-- The unread-filter fan-out: accumulate the channels kept by
`unreadFilterStep`, in order. -/
def channelsWithUnreads (info : String → InfoOutcome)
    (channels : List SlackChannel) : List SlackChannel :=
  channels.filterMap (unreadFilterStep info)

/-- DM counterpart collection of lines 112-117 / 185-190. -/
def collectDmUserIds (channels : List SlackChannel) : List String :=
  channels.foldl (fun acc ch =>
    match ch.user with
    | some u => if ch.is_im then (if acc.contains u then acc else acc ++ [u]) else acc
    | none => acc) []

/-- Response of `listConversations`. -/
structure ListResponse where
  channels : List SlackChannel
  next_cursor : Option String := none
  deriving Repr, DecidableEq

/-- Output surface of the list/unread commands: the channel list handed
to `formatChannelList` plus the resolved users. -/
structure ListOutput where
  channels : List SlackChannel
  users : List SlackUser
  deriving Repr, DecidableEq

/-- Channel selection of the list command (conversations.ts lines
67-109): the unread fan-out replaces the channel list under
`--unread-only`, enriches it in place under `--show-unreads`, and leaves
it alone otherwise. -/
def listChannels (unreadOnly showUnreads : Bool)
    (info : String → InfoOutcome) (channels : List SlackChannel) :
    List SlackChannel :=
  if unreadOnly || showUnreads then
    if unreadOnly then channelsWithUnreads info channels
    else enrichShowUnreads info channels
  else channels

/-- The list command body from the fetched response onward
(conversations.ts lines 60-136): optional unread fan-out, DM user
collection, the batched `getUsersInfo` call whose rejection aborts the
command with no output (lines 120-126, 137-141). -/
def listCommand (unreadOnly showUnreads : Bool) (resp : ListResponse)
    (info : String → InfoOutcome)
    (usersInfo : List String → Except String UsersResponse) :
    Except String ListOutput :=
  let channels := listChannels unreadOnly showUnreads info resp.channels
  let userIds := collectDmUserIds channels
  if userIds.isEmpty then
    .ok { channels := channels, users := [] }
  else
    match usersInfo userIds with
    | .error e => .error e
    | .ok ur => .ok { channels := channels, users := ur.users.getD [] }

/-- The unread command body (conversations.ts lines 157-203): always the
unread filter fan-out, then the same batched user lookup whose rejection
aborts the command (lines 193-199, 204-208). -/
def unreadCommand (resp : ListResponse) (info : String → InfoOutcome)
    (usersInfo : List String → Except String UsersResponse) :
    Except String ListOutput :=
  let channels := channelsWithUnreads info resp.channels
  let userIds := collectDmUserIds channels
  if userIds.isEmpty then
    .ok { channels := channels, users := [] }
  else
    match usersInfo userIds with
    | .error e => .error e
    | .ok ur => .ok { channels := channels, users := ur.users.getD [] }

/-- The pagination hint of the list command (conversations.ts lines
132-136): printed only when `next_cursor` is truthy, cursor reproduced
verbatim. -/
def listPaginationHint (next_cursor : Option String)
    (limit types : Option String) : Option String :=
  match next_cursor with
  | none => none
  | some c =>
    if c == "" then none
    else some ("  slack conversations list --cursor=" ++ c
      ++ (match limit with | some l => " --limit=" ++ l | none => "")
      ++ (match types with | some t => " --types=" ++ t | none => ""))

/-! ## Search command (search.ts lines 19-83) -/

/-- One entry of `searchResults.messages.matches`. -/
structure SearchMatch where
  ts : String
  user : Option String := none
  username : Option String := none
  text : String := ""
  permalink : Option String := none
  deriving Repr, DecidableEq

/-- Resolved response of `client.searchMessages`. -/
structure SearchResponse where
  ok : Bool := true
  errMsg : Option String := none
  matchList : List SearchMatch := []
  total : Nat := 0
  deriving Repr, DecidableEq

/-- Arguments forwarded to `client.searchMessages` (search.ts lines
41-45). -/
structure SearchArgs where
  query : String
  count : Int
  sort : String
  channel : Option String
  deriving Repr, DecidableEq

/-- How a search invocation terminates when it does not print results:
a `ValidationError` (count/sort checks, lines 26-38), the non-ok
response branch (lines 47-51), or a rejected client promise caught at
lines 79-83. -/
inductive CmdFailure where
  | validation (msg : String)
  | apiError (msg : String)
  | thrown (e : String)
  deriving Repr, DecidableEq

/-- Emitted search result: the matches handed to `formatSearchResults`
with the total and the resolved users. -/
structure SearchOutput where
  matchList : List SearchMatch
  total : Nat
  users : List SlackUser
  deriving Repr, DecidableEq

/-- Author collection over search matches (search.ts lines 54-60). -/
def collectMatchUserIds (ms : List SearchMatch) : List String :=
  ms.foldl (fun acc m =>
    match m.user with
    | some u => if acc.contains u then acc else acc ++ [u]
    | none => acc) []

/-- The search command after a resolved `searchMessages` call (search.ts
lines 47-77): the non-ok branch fails the command; author ids are
collected and, when non-empty, resolved through one `getUsersInfo` call
whose rejection aborts the command; an ok:false users response is kept
as an empty user map (line 66). -/
def searchCont (result : SearchResponse)
    (usersInfo : List String → Except String UsersResponse) :
    Except CmdFailure SearchOutput :=
  if !result.ok then
    .error (.apiError (result.errMsg.getD "Unknown error occurred"))
  else
    let ids := collectMatchUserIds result.matchList
    if ids.isEmpty then
      .ok { matchList := result.matchList, total := result.total, users := [] }
    else
      match usersInfo ids with
      | .error e => .error (.thrown e)
      | .ok ur =>
        .ok { matchList := result.matchList, total := result.total,
              users := if ur.ok && ur.users.isSome then ur.users.getD [] else [] }

/-- The search command body (search.ts lines 22-83): `parseInt` the
count and reject `NaN` or values outside 1-100, then — guarded by the
truthiness check `options.sort &&` of line 34, i.e. only when the sort
string is non-empty — reject sorts other than `timestamp`/`score`; both
checks run before `searchMessages` is invoked.  Query, parsed count,
sort (including a falsy empty sort) and channel are then forwarded
unchanged and the command continues with `searchCont`.  A rejected
`searchMessages` promise is the catch block. -/
def searchCommand (countStr sort query : String) (channel : Option String)
    (search : SearchArgs → Except String SearchResponse)
    (usersInfo : List String → Except String UsersResponse) :
    Except CmdFailure SearchOutput :=
  match parseIntJS countStr with
  | none => .error (.validation "Count must be between 1 and 100")
  | some count =>
    if count < 1 ∨ 100 < count then
      .error (.validation "Count must be between 1 and 100")
    else if ¬(sort = "") ∧ ¬(sort = "timestamp" ∨ sort = "score") then
      .error (.validation "Sort must be either \"timestamp\" or \"score\"")
    else
      match search { query := query, count := count, sort := sort,
                     channel := channel } with
      | .error e => .error (.thrown e)
      | .ok result => searchCont result usersInfo

/-! ## Error formatting (formatter.ts lines 196-255) -/

/-- Function `formatSlackError` (formatter.ts lines 196-237): the nine known API
error codes map to a human-readable message plus hint; any other code is
returned verbatim as the message with no hint. -/
def formatSlackError (errorCode : String) : String × Option String :=
  if errorCode == "invalid_auth" then
    ("Your session has expired or authentication is invalid.",
     some "Re-authenticate with:\n  slack auth login-browser")
  else if errorCode == "not_in_channel" then
    ("You're not a member of this channel.",
     some "Join the channel first in Slack, then try again.")
  else if errorCode == "channel_not_found" then
    ("Channel not found.",
     some "Verify the channel ID with: slack conversations list")
  else if errorCode == "ratelimited" then
    ("Rate limited by Slack.",
     some "Wait 60 seconds and try again.")
  else if errorCode == "missing_scope" then
    ("Missing required permissions.",
     some "Check your authentication scopes and re-authenticate if needed.")
  else if errorCode == "token_revoked" then
    ("Your authentication token has been revoked.",
     some "Re-authenticate with: slack auth login-browser")
  else if errorCode == "account_inactive" then
    ("Your Slack account is inactive.",
     some "Contact your workspace administrator.")
  else if errorCode == "invalid_cursor" then
    ("Invalid pagination cursor.",
     some "The cursor may have expired. Start a new query without --cursor.")
  else if errorCode == "no_permission" then
    ("You don't have permission to access this resource.",
     some "Contact your workspace administrator for access.")
  else (errorCode, none)

/-- The nine codes present in `formatSlackError`'s map. -/
def knownErrorCodes : List String :=
  ["invalid_auth", "not_in_channel", "channel_not_found", "ratelimited",
   "missing_scope", "token_revoked", "account_inactive", "invalid_cursor",
   "no_permission"]

/-- The `^([a-z_]+)$` test of `error` (formatter.ts line 242): non-empty
and every character a lowercase ASCII letter or underscore. -/
def looksLikeSlackCode (s : String) : Bool :=
  !s.isEmpty && s.data.all (fun c => (97 ≤ c.toNat && c.toNat ≤ 122) || c == '_')

/-- What one `error(message, hint?)` call surfaces. -/
structure ErrorOutput where
  message : String
  hint : Option String
  deriving Repr, DecidableEq

/-- Function `error` (formatter.ts lines 240-255): a message that looks like a
Slack error code is routed through `formatSlackError`, surfacing its
message and its hint when present (the caller-supplied hint is ignored
on this branch); any other message is surfaced as is together with the
caller-supplied hint. -/
def errorOutput (message : String) (hint : Option String) : ErrorOutput :=
  if looksLikeSlackCode message then
    let f := formatSlackError message
    { message := f.1, hint := f.2 }
  else
    { message := message, hint := hint }

/-! ## Helper lemmas -/

/-- Floor division by 1000 after subtracting a whole number of
thousands. -/
theorem fdiv_sub_mul_thousand (a : Int) (k : Nat) :
    Int.fdiv (a - ((k * 1000 : Nat) : Int)) 1000 = Int.fdiv a 1000 - k := by
  rw [Int.fdiv_eq_ediv _ (by norm_num), Int.fdiv_eq_ediv _ (by norm_num)]
  have h : a - ((k * 1000 : Nat) : Int) = a + (-(k : Int)) * 1000 := by
    push_cast; ring
  rw [h, Int.add_mul_ediv_right _ _ (by norm_num : (1000 : Int) ≠ 0)]
  ring

/-- The millisecond and second unit tables agree up to the factor
1000. -/
theorem unitMsOf_eq (u : String) : unitMsOf u = unitSecondsOf u * 1000 := by
  unfold unitMsOf unitSecondsOf
  split_ifs <;> norm_num

/-- A successful relative match returns one of the six grammar units,
lowercased. -/
theorem matchRelative_unit (s : String) (n : Nat) (u : String)
    (h : matchRelative s = some (n, u)) :
    u = "day" ∨ u = "days" ∨ u = "week" ∨ u = "weeks" ∨
    u = "hour" ∨ u = "hours" := by
  simp only [matchRelative] at h
  split_ifs at h with h1 h2 h3 h4 h5
  all_goals simp at h
  obtain ⟨-, hb⟩ := h
  subst hb
  simp only [Bool.not_eq_true, Bool.not_eq_true', Bool.not_eq_false,
    Bool.or_eq_true, beq_iff_eq] at h3
  tauto

/-! ## C7 / C8 — DateRangeResolver -/

/-- C7: for every string matched by the relative "N unit ago" grammar
(case-insensitively), `parseDate` returns the decimal string of
`floor(now_seconds) - N * unitSeconds` epoch seconds, with unitSeconds
3600 for hours, 86400 for days and 604800 for weeks. -/
theorem relative_date_resolution (nowMs : Int)
    (dateParse : String → Option Int) (s : String) (n : Nat) (u : String)
    (h : matchRelative s = some (n, u)) :
    parseDate nowMs dateParse s =
      .ok (toString (Int.fdiv nowMs 1000 - ((n * unitSecondsOf u : Nat) : Int))) ∧
    ((u = "hour" ∨ u = "hours") → unitSecondsOf u = 3600) ∧
    ((u = "day" ∨ u = "days") → unitSecondsOf u = 86400) ∧
    ((u = "week" ∨ u = "weeks") → unitSecondsOf u = 604800) := by
  have harith : Int.fdiv (nowMs - ((n * unitMsOf u : Nat) : Int)) 1000
      = Int.fdiv nowMs 1000 - ((n * unitSecondsOf u : Nat) : Int) := by
    rw [unitMsOf_eq, ← Nat.mul_assoc]
    exact fdiv_sub_mul_thousand nowMs (n * unitSecondsOf u)
  refine ⟨?_, ?_, ?_, ?_⟩
  · simp only [parseDate, h, harith]
  · rintro (rfl | rfl) <;> rfl
  · rintro (rfl | rfl) <;> rfl
  · rintro (rfl | rfl) <;> rfl

/-- Witness for C7 at the concrete input "2 Days AGO" (case-varied
unit). -/
theorem relative_date_resolution_witness :
    matchRelative "2 Days AGO" = some (2, "days") ∧
    parseDate 1700000000000 (fun _ => none) "2 Days AGO" =
      .ok (toString (Int.fdiv 1700000000000 1000 -
        ((2 * unitSecondsOf "days" : Nat) : Int))) :=
  ⟨by decide,
   (relative_date_resolution 1700000000000 (fun _ => none) "2 Days AGO" 2
     "days" (by decide)).1⟩

/-- C8: a string that matches neither the relative grammar nor the host
date parser makes `parseDate` fail with the invalid-date-format error
rather than return a timestamp. -/
theorem invalid_date_failure (nowMs : Int) (dateParse : String → Option Int)
    (s : String) (h1 : matchRelative s = none) (h2 : dateParse s = none) :
    parseDate nowMs dateParse s =
      .error ("Invalid date format: \"" ++ s ++
        "\". Use formats like \"2 days ago\", \"1 week ago\", or \"2025-11-25\"") := by
  simp only [parseDate, h1, h2]

/-- Witness for C8 at the concrete input "not-a-date" with a host parser
that rejects it. -/
theorem invalid_date_failure_witness :
    matchRelative "not-a-date" = none ∧
    parseDate 0 (fun _ => none) "not-a-date" =
      .error ("Invalid date format: \"" ++ "not-a-date" ++
        "\". Use formats like \"2 days ago\", \"1 week ago\", or \"2025-11-25\"") :=
  ⟨by decide, invalid_date_failure 0 (fun _ => none) "not-a-date" (by decide) rfl⟩

/-! ## C10 — exclude-replies scope -/

/-- C10: with `--exclude-replies` and no `--thread-ts`, every emitted
message has `thread_ts` absent or equal to its own `ts`; with
`--thread-ts` the flag has no effect and the reply page is emitted
(reversed) regardless. -/
theorem exclude_replies_scope (page : List SlackMessage) (t : String) :
    (∀ m ∈ readStage none true page,
        m.thread_ts = none ∨ m.thread_ts = some m.ts) ∧
    readStage (some t) true page = readStage (some t) false page ∧
    readStage (some t) true page = page.reverse := by
  refine ⟨?_, rfl, rfl⟩
  intro m hm
  simp only [readStage, if_true, List.mem_reverse, List.mem_filter,
    Bool.or_eq_true, beq_iff_eq, Option.isNone_iff_eq_none] at hm
  exact hm.2

/-- Concrete page used by the C10 witness. -/
def pageC10 : List SlackMessage :=
  [{ ts := "1", thread_ts := some "1" }, { ts := "2", thread_ts := some "1" },
   { ts := "3" }]

/-- The thread root of `pageC10`. -/
def rootC10 : SlackMessage := { ts := "1", thread_ts := some "1" }

/-- Witness for C10 on a concrete page holding a root, a reply and a
plain message. -/
theorem exclude_replies_scope_witness :
    rootC10 ∈ readStage none true pageC10 ∧
    (rootC10.thread_ts = none ∨ rootC10.thread_ts = some rootC10.ts) ∧
    readStage (some "1") true pageC10 = readStage (some "1") false pageC10 :=
  ⟨by decide, (exclude_replies_scope pageC10 "1").1 rootC10 (by decide),
   (exclude_replies_scope pageC10 "1").2.1⟩

/-! ## C1 — stage-5 ordering -/

/-- The spec's example page for the history pipeline. -/
def pageC1 : List SlackMessage :=
  [{ ts := "3", thread_ts := some "1" }, { ts := "1", thread_ts := some "1" },
   { ts := "2" }]

/-- C1 counterexample: on the fetched page with ts order 3, 1, 2 the
stage-5 output order is 2, 1, 3 — not the chronologically ascending
1, 2, 3 the claim states. -/
theorem read_order_counterexample :
    (readStage none false pageC1).map SlackMessage.ts = ["2", "1", "3"] ∧
    ¬((readStage none false pageC1).map SlackMessage.ts = ["1", "2", "3"]) := by
  decide

/-- C1 (amended): stage 5 emits exactly the reversal of the fetched
page, so whenever the page is sorted strictly descending (the API's
newest-first order), the output is sorted strictly ascending, oldest
first. -/
theorem read_order_reversal (threadTs : Option String)
    (page : List SlackMessage) (r : SlackMessage → SlackMessage → Prop)
    (hdesc : page.Pairwise (fun a b => r b a)) :
    readStage threadTs false page = page.reverse ∧
    (readStage threadTs false page).Pairwise r := by
  have he : readStage threadTs false page = page.reverse := by
    cases threadTs <;> rfl
  exact ⟨he, he ▸ List.pairwise_reverse.mpr hdesc⟩

/-- A page sorted descending by numeric ts, for the C1 witness. -/
def pageC1desc : List SlackMessage := [{ ts := "3" }, { ts := "2" }, { ts := "1" }]

/-- Numeric value of a ts string, the order the glossary says ts
compares by. -/
def tsVal (m : SlackMessage) : Nat := natOfDigits m.ts.data

/-- Witness for C1 (amended) on a concrete descending page. -/
theorem read_order_reversal_witness :
    pageC1desc.Pairwise (fun a b => tsVal b < tsVal a) ∧
    readStage none false pageC1desc = pageC1desc.reverse ∧
    (readStage none false pageC1desc).Pairwise (fun a b => tsVal a < tsVal b) :=
  ⟨by decide,
   (read_order_reversal none pageC1desc (fun a b => tsVal a < tsVal b) (by decide)).1,
   (read_order_reversal none pageC1desc (fun a b => tsVal a < tsVal b) (by decide)).2⟩

/-! ## C6 — cursor pass-through -/

/-- C6: the read command's JSON output carries the response's
`next_cursor` verbatim (and hence no cursor value when the response has
none), and both pagination hints reproduce a present cursor unchanged
after `--cursor=` while an absent cursor produces no hint. -/
theorem cursor_passthrough :
    (∀ (threadTs : Option String) (er : Bool) (resp : HistoryResponse)
       (usersInfo : List String → Except String UsersResponse)
       (cid : String) (out : ReadOutput),
       readCommand threadTs er resp usersInfo cid = .ok out →
       out.next_cursor = resp.next_cursor) ∧
    (∀ (lim types : Option String) (c : String), ¬(c = "") →
       listPaginationHint (some c) lim types =
         some ("  slack conversations list --cursor=" ++ c
           ++ (match lim with | some l => " --limit=" ++ l | none => "")
           ++ (match types with | some t => " --types=" ++ t | none => ""))) ∧
    (∀ lim types, listPaginationHint none lim types = none) ∧
    (∀ (cid : String) (lim o l : Option String) (c : String), ¬(c = "") →
       readPaginationHint cid (some c) lim o l =
         some ("  slack conversations read " ++ cid ++ " --cursor=" ++ c
           ++ (match lim with | some s => " --limit=" ++ s | none => "")
           ++ (match o with | some s => " --oldest=" ++ s | none => "")
           ++ (match l with | some s => " --latest=" ++ s | none => ""))) ∧
    (∀ cid lim o l, readPaginationHint cid none lim o l = none) := by
  refine ⟨?_, ?_, ?_, ?_, ?_⟩
  · intro threadTs er resp usersInfo cid out h
    simp only [readCommand] at h
    split at h
    · cases h
      rfl
    · split at h
      · exact Except.noConfusion h
      · cases h
        rfl
  · intro lim types c hc
    simp only [listPaginationHint]
    rw [if_neg (by simp [hc])]
  · intro lim types
    rfl
  · intro cid lim o l c hc
    simp only [readPaginationHint]
    rw [if_neg (by simp [hc])]
  · intro cid lim o l
    rfl

/-- Users-info oracle that resolves with an empty user list. -/
def usersOracleEmpty : List String → Except String UsersResponse :=
  fun _ => .ok { ok := true, users := some [] }

/-- Witness for C6 at the concrete cursor "abc" and at an absent
cursor. -/
theorem cursor_passthrough_witness :
    ({ channel_id := "C042", message_count := 0, messages := [],
       users := [], next_cursor := some "abc" } : ReadOutput).next_cursor =
      ({ messages := [], next_cursor := some "abc" } : HistoryResponse).next_cursor ∧
    listPaginationHint (some "abc") (some "100") none =
      some ("  slack conversations list --cursor=" ++ "abc"
        ++ (" --limit=" ++ "100") ++ "") ∧
    listPaginationHint none (some "100") none = none ∧
    readPaginationHint "C042" none none none none = none :=
  ⟨cursor_passthrough.1 none false { messages := [], next_cursor := some "abc" }
     usersOracleEmpty "C042" _ rfl,
   cursor_passthrough.2.1 (some "100") none "abc" (by decide),
   cursor_passthrough.2.2.1 (some "100") none,
   cursor_passthrough.2.2.2.2 "C042" none none none⟩

/-! ## C5 — search count/sort validation -/

/-- A search oracle that only answers an invocation whose forwarded
count is 50; every other argument set is rejected.  Its use in the
counterexample shows the API call is reached and reached with the
parseInt-truncated count. -/
def searchOracleC5 : SearchArgs → Except String SearchResponse := fun a =>
  if a.count = 50 then .ok { ok := true } else .error "unexpected arguments"

/-- C5 counterexample: the non-numeric count string "50abc" is not
rejected — `parseInt` truncates it to 50, the validation passes and
`searchMessages` is invoked (the oracle only answers count 50). -/
theorem search_count_counterexample :
    parseIntJS "50abc" = some 50 ∧
    searchCommand "50abc" "score" "q" none searchOracleC5 usersOracleEmpty =
      .ok { matchList := [], total := 0, users := [] } :=
  ⟨by decide, rfl⟩

/-- C5 (amended): a count string with no leading integer, or whose
parsed value lies outside 1-100, is rejected with the count validation
error before any API call (for every oracle); with an in-range count, a
non-empty sort other than "timestamp"/"score" is rejected with the sort
validation error, while an empty (falsy) sort string skips the sort
check and is forwarded unchanged to `searchMessages`; count 100 with
sort "timestamp" is accepted and forwarded unchanged.  (Strings such as
"50abc" parse to their leading integer and are treated as it.) -/
theorem search_validation (countStr sort q : String) (ch : Option String)
    (search : SearchArgs → Except String SearchResponse)
    (usersInfo : List String → Except String UsersResponse) :
    (parseIntJS countStr = none →
      searchCommand countStr sort q ch search usersInfo =
        .error (.validation "Count must be between 1 and 100")) ∧
    (∀ c : Int, parseIntJS countStr = some c → (c < 1 ∨ 100 < c) →
      searchCommand countStr sort q ch search usersInfo =
        .error (.validation "Count must be between 1 and 100")) ∧
    (∀ c : Int, parseIntJS countStr = some c → 1 ≤ c → c ≤ 100 →
      ¬(sort = "") → ¬(sort = "timestamp") → ¬(sort = "score") →
      searchCommand countStr sort q ch search usersInfo =
        .error (.validation "Sort must be either \"timestamp\" or \"score\"")) ∧
    (∀ c : Int, parseIntJS countStr = some c → 1 ≤ c → c ≤ 100 →
      searchCommand countStr "" q ch search usersInfo =
        match search { query := q, count := c, sort := "",
                       channel := ch } with
        | .error e => .error (.thrown e)
        | .ok result => searchCont result usersInfo) ∧
    (searchCommand "100" "timestamp" q ch search usersInfo =
      match search { query := q, count := 100, sort := "timestamp",
                     channel := ch } with
      | .error e => .error (.thrown e)
      | .ok result => searchCont result usersInfo) := by
  refine ⟨?_, ?_, ?_, ?_, ?_⟩
  · intro h
    simp only [searchCommand, h]
  · intro c hc hor
    simp only [searchCommand, hc]
    rw [if_pos hor]
  · intro c hc hlo hhi hse hs1 hs2
    simp only [searchCommand, hc]
    rw [if_neg (by omega), if_pos ⟨hse, by tauto⟩]
  · intro c hc hlo hhi
    simp only [searchCommand, hc]
    rw [if_neg (by omega), if_neg (fun h => h.1 trivial)]
  · rfl

/-- Witness for C5 (amended): the validation outcomes, the empty-sort
pass-through and the forwarding step at concrete inputs. -/
theorem search_validation_witness :
    searchCommand "0" "score" "q" none searchOracleC5 usersOracleEmpty =
      .error (.validation "Count must be between 1 and 100") ∧
    searchCommand "101" "score" "q" none searchOracleC5 usersOracleEmpty =
      .error (.validation "Count must be between 1 and 100") ∧
    searchCommand "abc" "score" "q" none searchOracleC5 usersOracleEmpty =
      .error (.validation "Count must be between 1 and 100") ∧
    searchCommand "20" "bogus" "q" none searchOracleC5 usersOracleEmpty =
      .error (.validation "Sort must be either \"timestamp\" or \"score\"") ∧
    searchCommand "20" "" "q" none searchOracleC5 usersOracleEmpty =
      (match searchOracleC5 { query := "q", count := 20, sort := "",
                              channel := none } with
       | .error e => .error (.thrown e)
       | .ok result => searchCont result usersOracleEmpty) ∧
    searchCommand "100" "timestamp" "q" none searchOracleC5 usersOracleEmpty =
      (match searchOracleC5 { query := "q", count := 100, sort := "timestamp",
                              channel := none } with
       | .error e => .error (.thrown e)
       | .ok result => searchCont result usersOracleEmpty) :=
  ⟨(search_validation "0" "score" "q" none searchOracleC5 usersOracleEmpty).2.1
     0 (by decide) (by norm_num),
   (search_validation "101" "score" "q" none searchOracleC5 usersOracleEmpty).2.1
     101 (by decide) (by norm_num),
   (search_validation "abc" "score" "q" none searchOracleC5 usersOracleEmpty).1
     (by decide),
   (search_validation "20" "bogus" "q" none searchOracleC5 usersOracleEmpty).2.2.1
     20 (by decide) (by norm_num) (by norm_num) (by decide) (by decide) (by decide),
   (search_validation "20" "unused" "q" none searchOracleC5
     usersOracleEmpty).2.2.2.1 20 (by decide) (by norm_num) (by norm_num),
   (search_validation "100" "timestamp" "q" none searchOracleC5
     usersOracleEmpty).2.2.2.2⟩

/-! ## C9 — error surfacing -/

/-- A message classified as a Slack error code is surfaced through
`formatSlackError`, ignoring the caller-supplied hint. -/
theorem errorOutput_code (code : String) (hint : Option String)
    (h : looksLikeSlackCode code = true) :
    errorOutput code hint =
      { message := (formatSlackError code).1, hint := (formatSlackError code).2 } := by
  simp [errorOutput, h]

/-- C9: every known API error code surfaces its mapped human-readable
message (different from the raw code) together with an actionable hint;
every error-code-shaped string outside the known set is surfaced
verbatim as the message with no hint attached, whatever generic hint the
caller supplied. -/
theorem error_code_surfacing (code : String) (hint : Option String) :
    (code ∈ knownErrorCodes →
      errorOutput code hint =
        { message := (formatSlackError code).1,
          hint := (formatSlackError code).2 } ∧
      (formatSlackError code).2.isSome = true ∧
      ¬((formatSlackError code).1 = code)) ∧
    (code ∉ knownErrorCodes → looksLikeSlackCode code = true →
      errorOutput code hint = { message := code, hint := none }) := by
  constructor
  · intro hmem
    fin_cases hmem <;>
      exact ⟨errorOutput_code _ hint (by decide), by decide, by decide⟩
  · intro hmem hshape
    rw [errorOutput_code code hint hshape]
    simp only [knownErrorCodes, List.mem_cons, List.not_mem_nil, or_false,
      not_or] at hmem
    obtain ⟨h1, h2, h3, h4, h5, h6, h7, h8, h9⟩ := hmem
    simp [formatSlackError, h1, h2, h3, h4, h5, h6, h7, h8, h9]

/-- Witness for C9 at the known code "ratelimited" and the unknown code
"mystery_code", both with a caller-supplied generic hint. -/
theorem error_code_surfacing_witness :
    errorOutput "ratelimited" (some "generic") =
      { message := (formatSlackError "ratelimited").1,
        hint := (formatSlackError "ratelimited").2 } ∧
    (formatSlackError "ratelimited").2.isSome = true ∧
    errorOutput "mystery_code" (some "generic") =
      { message := "mystery_code", hint := none } :=
  ⟨((error_code_surfacing "ratelimited" (some "generic")).1 (by decide)).1,
   ((error_code_surfacing "ratelimited" (some "generic")).1 (by decide)).2.1,
   (error_code_surfacing "mystery_code" (some "generic")).2 (by decide) (by decide)⟩

/-! ## C3 — per-channel unread-enrichment failure tolerance -/

/-- A channel surviving the unread filter keeps its id and cannot stem
from a rejected info call. -/
theorem unreadFilterStep_some (info : String → InfoOutcome)
    (a c : SlackChannel) (h : unreadFilterStep info a = some c) :
    c.id = a.id ∧ ¬(info a.id = .thrown) := by
  constructor
  · unfold unreadFilterStep at h
    repeat' split at h
    all_goals first
      | exact Option.noConfusion h
      | (injection h with h'; subst h'; rfl)
  · intro hthrown
    simp [unreadFilterStep, hthrown] at h

/-- C3: a rejected `getConversationInfo` for channel X never aborts the
command — the list command (show-unreads variant) still emits X,
untouched, while the unread filter excludes every channel with X's id;
and a channel whose info call resolves with a positive unread count is
emitted, enriched, by the unread filter. -/
theorem unread_enrichment_tolerance (info : String → InfoOutcome)
    (channels : List SlackChannel) (X : String) (hx : info X = .thrown) :
    (∀ ch ∈ channels, ch.id = X → ch ∈ enrichShowUnreads info channels) ∧
    (∀ ch ∈ channelsWithUnreads info channels, ¬(ch.id = X)) ∧
    (∀ ch ∈ channels, ∀ ci n, info ch.id = .resp true (some ci) →
       ci.unread_count_display = some n → 0 < n →
       { ch with unread_count_display := some n, last_read := ci.last_read } ∈
         channelsWithUnreads info channels) := by
  refine ⟨?_, ?_, ?_⟩
  · intro ch hm hid
    have hstep : showUnreadsStep info ch = ch := by
      simp [showUnreadsStep, hid, hx]
    have := List.mem_map_of_mem (showUnreadsStep info) hm
    rw [hstep] at this
    exact this
  · intro ch hm
    simp only [channelsWithUnreads, List.mem_filterMap] at hm
    obtain ⟨a, ha, hfa⟩ := hm
    obtain ⟨hcid, hnt⟩ := unreadFilterStep_some info a ch hfa
    intro hchx
    have haX : a.id = X := by rw [← hcid, hchx]
    exact hnt (by rw [haX, hx])
  · intro ch hm ci n h1 h2 h3
    simp only [channelsWithUnreads, List.mem_filterMap]
    exact ⟨ch, hm, by simp [unreadFilterStep, h1, h2, h3]⟩

/-- Info oracle for the C3 witness: channel X's call rejects, channel
Y's resolves with 2 unreads, everything else resolves non-ok. -/
def infoOracleC3 : String → InfoOutcome := fun id =>
  if id = "X" then .thrown
  else if id = "Y" then
    .resp true (some { id := "Y", unread_count_display := some 2,
                       last_read := some "1699.0" })
  else .resp false none

/-- The failing channel of the C3 witness. -/
def chanX : SlackChannel := { id := "X" }

/-- The succeeding channel of the C3 witness. -/
def chanY : SlackChannel := { id := "Y" }

/-- Witness for C3: with the info call rejecting for X and succeeding
for Y, the list output still contains X untouched, the unread output
excludes X's id, and enriched Y is in the unread output. -/
theorem unread_enrichment_tolerance_witness :
    chanX ∈ enrichShowUnreads infoOracleC3 [chanX, chanY] ∧
    ¬(({ chanY with unread_count_display := some 2, last_read := some "1699.0" } : SlackChannel).id = "X") ∧
    ({ chanY with unread_count_display := some 2, last_read := some "1699.0" } : SlackChannel) ∈
      channelsWithUnreads infoOracleC3 [chanX, chanY] :=
  ⟨(unread_enrichment_tolerance infoOracleC3 [chanX, chanY] "X" rfl).1
     chanX (by decide) rfl,
   (unread_enrichment_tolerance infoOracleC3 [chanX, chanY] "X" rfl).2.1
     _ (by decide),
   (unread_enrichment_tolerance infoOracleC3 [chanX, chanY] "X" rfl).2.2
     chanY (by decide)
     { id := "Y", unread_count_display := some 2, last_read := some "1699.0" }
     2 (by decide) rfl (by decide)⟩

/-! ## C4 — batched user-lookup failure is fatal -/

/-- C4: when the single batched `getUsersInfo` call rejects, every
command — read, list, unread, search — fails with that error and emits
no result (given the command reaches the non-empty user-id lookup). -/
theorem users_lookup_failure_fatal (e : String)
    (usersInfo : List String → Except String UsersResponse)
    (hfail : ∀ ids, usersInfo ids = .error e)
    (threadTs : Option String) (er : Bool) (resp : HistoryResponse)
    (cid : String)
    (h1 : ¬((collectUserIds (readStage threadTs er resp.messages)).isEmpty = true))
    (uo su : Bool) (lresp : ListResponse) (info : String → InfoOutcome)
    (h2 : ¬((collectDmUserIds (listChannels uo su info lresp.channels)).isEmpty = true))
    (h3 : ¬((collectDmUserIds (channelsWithUnreads info lresp.channels)).isEmpty = true))
    (countStr sort q : String) (ch : Option String) (c : Int)
    (search : SearchArgs → Except String SearchResponse)
    (sresp : SearchResponse)
    (hc : parseIntJS countStr = some c) (hc1 : ¬(c < 1 ∨ 100 < c))
    (hsort : sort = "timestamp" ∨ sort = "score")
    (hs : search { query := q, count := c, sort := sort, channel := ch } = .ok sresp)
    (hok : sresp.ok = true)
    (h4 : ¬((collectMatchUserIds sresp.matchList).isEmpty = true)) :
    readCommand threadTs er resp usersInfo cid = .error e ∧
    listCommand uo su lresp info usersInfo = .error e ∧
    unreadCommand lresp info usersInfo = .error e ∧
    searchCommand countStr sort q ch search usersInfo = .error (.thrown e) := by
  refine ⟨?_, ?_, ?_, ?_⟩
  · simp only [readCommand]
    rw [if_neg h1, hfail]
  · simp only [listCommand]
    rw [if_neg h2, hfail]
  · simp only [unreadCommand]
    rw [if_neg h3, hfail]
  · simp only [searchCommand, hc]
    rw [if_neg hc1, if_neg (fun h => h.2 hsort), hs]
    simp only [searchCont, hok, Bool.not_true]
    rw [if_neg (by simp), if_neg h4, hfail]

/-- Users-info oracle that always rejects. -/
def usersOracleFail : List String → Except String UsersResponse :=
  fun _ => .error "boom"

/-- Info oracle for the C4 witness: every channel reports one unread. -/
def infoOracleC4 : String → InfoOutcome :=
  fun _ => .resp true (some { id := "I", unread_count_display := some 1 })

/-- History page with one authored message, for the C4 witness. -/
def histC4 : HistoryResponse := { messages := [{ ts := "1", user := some "U1" }] }

/-- Channel page with one DM, for the C4 witness. -/
def listC4 : ListResponse :=
  { channels := [{ id := "D1", is_im := true, user := some "U2" }] }

/-- Search response with one authored match, for the C4 witness. -/
def srespC4 : SearchResponse :=
  { ok := true, matchList := [{ ts := "1", user := some "U3" }] }

/-- Search oracle resolving with `srespC4`. -/
def searchOracleC4 : SearchArgs → Except String SearchResponse :=
  fun _ => .ok srespC4

/-- Witness for C4: with a rejecting `getUsersInfo`, all four commands
fail with that error on concrete inputs that reach the lookup. -/
theorem users_lookup_failure_fatal_witness :
    readCommand none false histC4 usersOracleFail "C1" = .error "boom" ∧
    listCommand false false listC4 infoOracleC4 usersOracleFail = .error "boom" ∧
    unreadCommand listC4 infoOracleC4 usersOracleFail = .error "boom" ∧
    searchCommand "20" "score" "q" none searchOracleC4 usersOracleFail =
      .error (.thrown "boom") :=
  users_lookup_failure_fatal "boom" usersOracleFail (fun _ => rfl) none false
    histC4 "C1" (by decide) false false listC4 infoOracleC4 (by decide)
    (by decide) "20" "score" "q" none 20 searchOracleC4 srespC4 (by decide)
    (by norm_num) (Or.inr rfl) rfl rfl (by decide)

/-! ## C2 — thread-parent resolution -/

/-- JS `Map.set` preserves key membership, adding exactly the new key. -/
theorem mapSet_any (acc : List (String × SlackMessage)) (t : String)
    (v : SlackMessage) (k : String) :
    (mapSet acc t v).any (fun p => p.1 == k) =
      (acc.any (fun p => p.1 == k) || (t == k)) := by
  unfold mapSet
  by_cases h : acc.any (fun p => p.1 == t) = true
  · rw [if_pos h, List.any_map]
    have hkeys : ((fun p : String × SlackMessage => p.1 == k) ∘
        (fun p => if p.1 == t then (t, v) else p)) = (fun p => p.1 == k) := by
      funext p
      by_cases hp : (p.1 == t) = true
      · have hpt : p.1 = t := by simpa [beq_iff_eq] using hp
        simp [Function.comp, hp, hpt]
      · simp [Function.comp, hp]
    rw [hkeys]
    by_cases hk : t = k
    · subst hk
      simp [h]
    · have hf : (t == k) = false := by simp [hk]
      simp [hf]
  · rw [if_neg h, List.any_append]
    simp

/-- Key membership in the parents map: exactly the timestamps of the
messages with `thread_ts == ts`. -/
theorem buildParents_any (page : List SlackMessage) (k : String) :
    (buildParents page).any (fun p => p.1 == k) =
      page.any (fun m => (m.thread_ts == some m.ts) && (m.ts == k)) := by
  suffices h : ∀ acc : List (String × SlackMessage),
      ((page.foldl (fun acc m =>
          if m.thread_ts == some m.ts then mapSet acc m.ts m else acc)
        acc).any (fun p => p.1 == k)) =
      (acc.any (fun p => p.1 == k) ||
        page.any (fun m => (m.thread_ts == some m.ts) && (m.ts == k))) by
    simpa [buildParents] using h []
  intro acc
  induction page generalizing acc with
  | nil => simp
  | cons m rest ih =>
    simp only [List.foldl_cons, List.any_cons]
    by_cases hm : (m.thread_ts == some m.ts) = true
    · rw [if_pos hm, ih (mapSet acc m.ts m), mapSet_any]
      simp [hm, Bool.or_assoc]
    · rw [if_neg hm, ih acc]
      have hm' : (m.thread_ts == some m.ts) = false := by
        simpa using hm
      simp [hm']

/-- A map lookup succeeds exactly on present keys. -/
theorem mapGet_isSome (m : List (String × SlackMessage)) (k : String) :
    (mapGet m k).isSome = m.any (fun p => p.1 == k) := by
  rcases hf : m.find? (fun p => p.1 == k) with _ | p
  · have hall := List.find?_eq_none.mp hf
    simp only [mapGet, hf, Option.map_none', Option.isSome_none]
    symm
    simp only [List.any_eq_false]
    exact fun p hp => by simpa using hall p hp
  · have hp := List.find?_some hf
    have hmem := List.mem_of_find?_eq_some hf
    simp only [mapGet, hf, Option.map_some', Option.isSome_some]
    symm
    simp only [List.any_eq_true]
    exact ⟨p, hmem, hp⟩

/-- The parents map holds an entry for `k` exactly when the page holds a
thread root with `ts = k`. -/
theorem buildParents_isSome (page : List SlackMessage) (k : String) :
    (mapGet (buildParents page) k).isSome = true ↔
      ∃ p ∈ page, p.thread_ts = some p.ts ∧ p.ts = k := by
  rw [mapGet_isSome, buildParents_any]
  simp [List.any_eq_true, Bool.and_eq_true, beq_iff_eq]

/-- The spec's example page: a reply whose root-ts is present only as a
plain (non-root) message. -/
def pageC2 : List SlackMessage :=
  [{ ts := "5" }, { ts := "6", thread_ts := some "5" }]

/-- The reply of `pageC2`. -/
def replyC2 : SlackMessage := { ts := "6", thread_ts := some "5" }

/-- C2 counterexample: a message with ts "5" is present in the page, yet
the reply with `thread_ts` "5" is given no parent preview, because the
ts-"5" message is not a thread root (`thread_ts` absent). -/
theorem thread_parent_counterexample :
    replyC2 ∈ pageC2 ∧ replyC2.thread_ts = some "5" ∧ ¬(replyC2.ts = "5") ∧
    (∃ p ∈ pageC2, p.ts = "5") ∧
    parentFor (buildParents pageC2) replyC2 = none := by
  decide

/-- C2 (amended): stage 4 indexes exactly the thread roots
(`thread_ts == ts`) of the page, keyed by ts; a reply is given a parent
preview iff a thread root with its `thread_ts` is present in the same
page; a reply whose root is absent from the page is emitted with no
parent context and no error. -/
theorem thread_parent_resolution (page : List SlackMessage) (k : String)
    (m : SlackMessage) (t : String) (hmem : m ∈ page)
    (hm : m.thread_ts = some t) (hne : ¬(t = m.ts)) :
    ((mapGet (buildParents page) k).isSome = true ↔
      ∃ p ∈ page, p.thread_ts = some p.ts ∧ p.ts = k) ∧
    ((parentFor (buildParents page) m).isSome = true ↔
      ∃ p ∈ page, p.thread_ts = some p.ts ∧ p.ts = t) ∧
    ((¬∃ p ∈ page, p.thread_ts = some p.ts ∧ p.ts = t) →
      (m, (none : Option SlackMessage)) ∈
        historyEntries page (buildParents page)) := by
  have hpf : parentFor (buildParents page) m = mapGet (buildParents page) t := by
    simp [parentFor, hm, hne]
  refine ⟨buildParents_isSome page k, ?_, ?_⟩
  · rw [hpf]
    exact buildParents_isSome page t
  · intro hno
    have hnone : mapGet (buildParents page) t = none := by
      cases hg : mapGet (buildParents page) t with
      | none => rfl
      | some v =>
        exact absurd ((buildParents_isSome page t).mp (by simp [hg])) hno
    have hpn : parentFor (buildParents page) m = none := by rw [hpf, hnone]
    have := List.mem_map_of_mem
      (fun x => (x, parentFor (buildParents page) x)) hmem
    simpa [historyEntries, hpn] using this

/-- Page for the C2 witness: a root and its reply. -/
def pageC2w : List SlackMessage :=
  [{ ts := "1", thread_ts := some "1" }, { ts := "3", thread_ts := some "1" }]

/-- The reply of `pageC2w`. -/
def replyC2w : SlackMessage := { ts := "3", thread_ts := some "1" }

/-- Witness for C2 (amended) on the spec's root-plus-reply page. -/
theorem thread_parent_resolution_witness :
    ((mapGet (buildParents pageC2w) "1").isSome = true ↔
      ∃ p ∈ pageC2w, p.thread_ts = some p.ts ∧ p.ts = "1") ∧
    ((parentFor (buildParents pageC2w) replyC2w).isSome = true ↔
      ∃ p ∈ pageC2w, p.thread_ts = some p.ts ∧ p.ts = "1") ∧
    ((¬∃ p ∈ pageC2w, p.thread_ts = some p.ts ∧ p.ts = "1") →
      (replyC2w, (none : Option SlackMessage)) ∈
        historyEntries pageC2w (buildParents pageC2w)) :=
  thread_parent_resolution pageC2w "1" replyC2w "1" (by decide) rfl (by decide)
